import Mathlib

/-!
Shallow embedding of the Valencia-Map realtime server (`src/server.js`).

The server keeps four in-memory collections (tokens, faction stats, move
proposals, movable-factions config) plus id counters, and a set of connected
socket sessions each carrying `isAuthenticated` / `userRole` flags.  Every
socket event handler is embedded as a pure function from a `ServerState`,
the requesting session id and the event payload to the new `ServerState`
together with the list of emitted events, each tagged with the id of the
session it is delivered to.

Record-store (Supabase) calls are modelled by a `DbOutcome` argument: the
calls in one handler invocation either return a success result, return an
error result (which `server.js` destructures and at most logs, except in
`move_proposal:create` where it aborts), or throw an exception that lands
in the handler's `catch` block.  Wall-clock time (`new Date().toISOString()`)
enters `token:place` as an explicit `now` argument.
-/

namespace ValenciaMap

/-- Outcome of the record-store calls performed during one handler
invocation: `ok` = the calls return without an error field, `err` = the
calls return an error result object, `exn` = the first call throws and
control jumps to the handler's catch block. -/
inductive DbOutcome where
  | ok
  | err
  | exn
deriving DecidableEq

/-- A placed map token (the object literal built in `socket.on('token:place')`,
lines 125-142 of server.js).  `visible_to_players` is `Option Bool` because
tokens merged by `token:update` may carry an absent field; absence models a
missing/undefined JS property. -/
structure Token where
  id : Nat
  x : Int
  y : Int
  name : String
  faction : String
  hp : Int
  max_hp : Int
  current_hp : Int
  attack : String
  counterattack : String
  special : String
  notes : String
  color : String
  playerid : Nat
  visible_to_players : Option Bool
  timestamp : String
deriving DecidableEq

/-- A faction summary record (the object literal at lines 333-344 of
server.js).  `is_visible : Option Bool` models a possibly absent JS field;
the player filter `f.is_visible === true` is `is_visible == some true` and
JS truthiness of the field is also `== some true`. -/
structure FactionStats where
  id : Nat
  faction_name : String
  current_hp : Int
  max_hp : Int
  force_stat : Int
  wealth_stat : Int
  cunning_stat : Int
  magic_stat : String
  treasure_stat : Int
  is_visible : Option Bool
deriving DecidableEq

/-- A pending move proposal (lines 439-446 of server.js; the `id` field is
assigned by the record store on insert, modelled by `proposalIdCounter`). -/
structure MoveProposal where
  id : Nat
  token_id : Nat
  original_x : Int
  original_y : Int
  proposed_x : Int
  proposed_y : Int
  proposed_by_session : Nat
deriving DecidableEq

/-- One entry of the movable-factions configuration list. -/
structure MovableFaction where
  faction_name : String
  is_movable : Bool
deriving DecidableEq

/-- A connected socket session: `socket.id`, `socket.isAuthenticated` and
`socket.userRole` (a string or `null`, hence `Option String`; lines 47-48
of server.js). -/
structure Session where
  sid : Nat
  isAuthenticated : Bool
  userRole : Option String
deriving DecidableEq

/-- Server-to-client events (section 6 of the spec; the event names of
server.js).  `errMsg` is the `error {message}` event. -/
inductive Event where
  | authResult (success : Bool) (role : Option String) (message : Option String)
  | tokensLoad (ts : List Token)
  | factionStatsLoad (fs : List FactionStats)
  | moveProposalsLoad (ps : List MoveProposal)
  | movableFactionsLoad (cfg : List MovableFaction)
  | tokenPlaced (t : Token)
  | tokenMoved (tokenId : Nat) (x y : Int)
  | tokenUpdated (t : Token)
  | tokenRemoved (id : Nat)
  | factionStatsUpdated (f : FactionStats)
  | factionStatsDeleted (name : String)
  | proposalCreated (p : MoveProposal)
  | proposalUpdated (p : MoveProposal)
  | proposalApproved (id : Nat)
  | proposalRejected (id : Nat)
  | proposalsCleared
  | movableFactionsUpdated (cfg : List MovableFaction)
  | errMsg (message : String)
deriving DecidableEq

/-- The whole in-memory server state: the four collections and the id
counters of server.js lines 31-40, the modelled record-store id counter for
move proposals, and the connected sessions. -/
structure ServerState where
  tokens : List Token
  tokenIdCounter : Nat
  factionStats : List FactionStats
  factionStatsIdCounter : Nat
  moveProposals : List MoveProposal
  movableFactionsConfig : List MovableFaction
  proposalIdCounter : Nat
  sessions : List Session
deriving DecidableEq

/-- JS `a || b` for numeric fields: `0` (and absence) is falsy. -/
def jsOrInt (a : Option Int) (b : Int) : Int :=
  match a with
  | some v => if v = 0 then b else v
  | none => b

/-- JS `a || b` for string fields: `""` (and absence) is falsy. -/
def jsOrStr (a : Option String) (b : String) : String :=
  match a with
  | some v => if v = "" then b else v
  | none => b

/-- The session of a given socket id, if connected. -/
def findSession (st : ServerState) (sid : Nat) : Option Session :=
  st.sessions.find? (fun c => c.sid == sid)

/-- Apply `f` to the session with id `sid` (models assigning to fields of
the `socket` object). -/
def mapSession (st : ServerState) (sid : Nat) (f : Session → Session) : ServerState :=
  { st with sessions := st.sessions.map (fun c => if c.sid == sid then f c else c) }

/-- Mutate the first list element satisfying `p` (models
`list[list.findIndex(p)] = ...` in server.js). -/
def updateFirst (p : α → Bool) (f : α → α) : List α → List α
  | [] => []
  | a :: as => if p a then f a :: as else a :: updateFirst p f as

/-- `io.emit(e)`: deliver `e` to every connected session, authenticated or
not. -/
def emitAll (sessions : List Session) (e : Event) : List (Nat × Event) :=
  sessions.map (fun c => (c.sid, e))

/-- The visibility-filtered token broadcast loop of server.js (lines
161-167, 192-202, 543-553): every authenticated DM session receives `e`,
an authenticated non-DM session receives it only when the affected token's
`visible_to_players` is not `false`. -/
def tokenVisEmits (sessions : List Session) (vis : Option Bool) (e : Event) : List (Nat × Event) :=
  sessions.filterMap (fun c =>
    if c.isAuthenticated && (c.userRole == some "dm" || vis != some false)
    then some (c.sid, e) else none)

/-- `isDM(socket)` of server.js lines 97-99. -/
def isDM (s : Session) : Bool :=
  s.isAuthenticated && s.userRole == some "dm"

/-- The player-facing token filter `tokens.filter(t => t.visible_to_players !== false)`. -/
def visibleTokens (tokens : List Token) : List Token :=
  tokens.filter (fun t => t.visible_to_players != some false)

/-- The player-facing faction filter `factionStats.filter(f => f.is_visible === true)`. -/
def visibleFactions (fs : List FactionStats) : List FactionStats :=
  fs.filter (fun f => f.is_visible == some true)

/-- `socket.on('authenticate')` (server.js lines 51-72).  `dmPassword` is
the configured `DM_PASSWORD` environment value; `role` is the payload's
role property (`none` = absent). -/
def onAuthenticate (dmPassword : String) (st : ServerState) (sid : Nat)
    (password : String) (role : Option String) : ServerState × List (Nat × Event) :=
  match findSession st sid with
  | none => (st, [])
  | some _ =>
    if role == some "dm" then
      if password == dmPassword then
        (mapSession st sid (fun c => { c with isAuthenticated := true, userRole := some "dm" }),
         [(sid, .authResult true (some "dm") none)])
      else
        (st, [(sid, .authResult false none (some "Invalid DM password"))])
    else if role == some "player" then
      (mapSession st sid (fun c => { c with isAuthenticated := true, userRole := some "player" }),
       [(sid, .authResult true (some "player") none)])
    else
      (st, [(sid, .authResult false none (some "Invalid role"))])

/-- `socket.on('set_role')` (server.js lines 75-94): accepted only when the
session is authenticated; assigns the requested role with no credential
check, then pushes the role-filtered snapshot to the requesting session. -/
def onSetRole (st : ServerState) (sid : Nat) (role : String) : ServerState × List (Nat × Event) :=
  match findSession st sid with
  | none => (st, [])
  | some s =>
    if s.isAuthenticated then
      let st' := mapSession st sid (fun c => { c with userRole := some role })
      let tokensToSend := if role == "dm" then st.tokens else visibleTokens st.tokens
      let factionsToSend := if role == "dm" then st.factionStats else visibleFactions st.factionStats
      (st', [(sid, .tokensLoad tokensToSend),
             (sid, .factionStatsLoad factionsToSend),
             (sid, .moveProposalsLoad st.moveProposals),
             (sid, .movableFactionsLoad st.movableFactionsConfig)])
    else (st, [])

/-- `socket.on('request_tokens')` (server.js lines 107-117): authenticated
sessions get the role-filtered token and faction snapshots; an
unauthenticated request is silently ignored (no rejection event). -/
def onRequestTokens (st : ServerState) (sid : Nat) : ServerState × List (Nat × Event) :=
  match findSession st sid with
  | none => (st, [])
  | some s =>
    if s.isAuthenticated then
      let tokensToSend := if s.userRole == some "dm" then st.tokens else visibleTokens st.tokens
      let factionsToSend := if s.userRole == some "dm" then st.factionStats else visibleFactions st.factionStats
      (st, [(sid, .tokensLoad tokensToSend), (sid, .factionStatsLoad factionsToSend)])
    else (st, [])

/-- Payload of `token:place` (server.js lines 125-141): `x`,`y` are used
directly, every other field is optional and defaulted with JS `||` or, for
`visible_to_players`, with `!== false`. -/
structure TokenPlaceData where
  x : Int
  y : Int
  name : Option String
  faction : Option String
  hp : Option Int
  max_hp : Option Int
  current_hp : Option Int
  attack : Option String
  counterattack : Option String
  special : Option String
  notes : Option String
  color : Option String
  visible_to_players : Option Bool
deriving DecidableEq

/-- Payload of `token:update`: the id of the token plus any subset of its
fields; `{...token, ...updatedData}` keeps fields that are absent from the
payload. -/
structure TokenUpdateData where
  id : Nat
  x : Option Int
  y : Option Int
  name : Option String
  faction : Option String
  hp : Option Int
  max_hp : Option Int
  current_hp : Option Int
  attack : Option String
  counterattack : Option String
  special : Option String
  notes : Option String
  color : Option String
  visible_to_players : Option Bool
deriving DecidableEq

/-- Payload of `faction_stats:update`: keyed by `faction_name`, all stat
fields optional. -/
structure FactionUpdateData where
  faction_name : String
  current_hp : Option Int
  max_hp : Option Int
  force_stat : Option Int
  wealth_stat : Option Int
  cunning_stat : Option Int
  magic_stat : Option String
  treasure_stat : Option Int
  is_visible : Option Bool
deriving DecidableEq

/-- Payload of `move_proposal:create`. -/
structure ProposalCreateData where
  token_id : Nat
  original_x : Int
  original_y : Int
  proposed_x : Int
  proposed_y : Int
deriving DecidableEq

/-- The token object literal built by `token:place` (server.js lines
125-142); the handler increments `tokenIdCounter` first, so the synthesized
default name uses `tokenIdCounter - 1 = id`. -/
def buildPlacedToken (st : ServerState) (sid : Nat) (d : TokenPlaceData) (now : String) : Token :=
  { id := st.tokenIdCounter
    x := d.x
    y := d.y
    name := jsOrStr d.name ("Token " ++ toString st.tokenIdCounter)
    faction := jsOrStr d.faction ""
    hp := jsOrInt d.hp 0
    max_hp := jsOrInt d.max_hp (jsOrInt d.hp 0)
    current_hp := jsOrInt d.current_hp (jsOrInt d.hp 0)
    attack := jsOrStr d.attack "0"
    counterattack := jsOrStr d.counterattack "0"
    special := jsOrStr d.special ""
    notes := jsOrStr d.notes ""
    color := jsOrStr d.color "#FF0000"
    playerid := sid
    visible_to_players := some (d.visible_to_players != some false)
    timestamp := now }

/-- Authorized body of `token:place`: push the token, then broadcast
`token:placed` through the visibility filter.  The record-store insert only
logs its outcome (lines 147-158), so no `DbOutcome` argument appears. -/
def placeTokenBody (st : ServerState) (sid : Nat) (d : TokenPlaceData) (now : String) :
    ServerState × List (Nat × Event) :=
  let t := buildPlacedToken st sid d now
  let st' := { st with tokens := st.tokens ++ [t], tokenIdCounter := st.tokenIdCounter + 1 }
  (st', tokenVisEmits st'.sessions t.visible_to_players (.tokenPlaced t))

/-- `socket.on('token:place')` (server.js lines 120-168). -/
def onTokenPlace (st : ServerState) (sid : Nat) (d : TokenPlaceData) (now : String)
    (_db : DbOutcome) : ServerState × List (Nat × Event) :=
  match findSession st sid with
  | none => (st, [])
  | some s =>
    if isDM s then placeTokenBody st sid d now
    else (st, [(sid, .errMsg "Only DM can place tokens")])

/-- Authorized body of `token:move` (server.js lines 176-203): silent no-op
for an unknown id, otherwise mutate `x`,`y` in place and broadcast
`token:moved` through the visibility filter; the store update only logs. -/
def moveTokenBody (st : ServerState) (tokenId : Nat) (x y : Int) :
    ServerState × List (Nat × Event) :=
  match st.tokens.find? (fun t => t.id == tokenId) with
  | none => (st, [])
  | some t0 =>
    let t := { t0 with x := x, y := y }
    let st' := { st with
      tokens := updateFirst (fun u => u.id == tokenId) (fun u => { u with x := x, y := y }) st.tokens }
    (st', tokenVisEmits st'.sessions t.visible_to_players (.tokenMoved tokenId x y))

/-- `socket.on('token:move')` (server.js lines 171-204). -/
def onTokenMove (st : ServerState) (sid : Nat) (tokenId : Nat) (x y : Int)
    (_db : DbOutcome) : ServerState × List (Nat × Event) :=
  match findSession st sid with
  | none => (st, [])
  | some s =>
    if isDM s then moveTokenBody st tokenId x y
    else (st, [(sid, .errMsg "Only DM can move tokens")])

/-- The JS spread merge `{...t, ...u}` of `token:update` (server.js line
216): fields present in the payload override, absent fields are kept. -/
def mergeToken (t : Token) (u : TokenUpdateData) : Token :=
  { id := t.id
    x := u.x.getD t.x
    y := u.y.getD t.y
    name := u.name.getD t.name
    faction := u.faction.getD t.faction
    hp := u.hp.getD t.hp
    max_hp := u.max_hp.getD t.max_hp
    current_hp := u.current_hp.getD t.current_hp
    attack := u.attack.getD t.attack
    counterattack := u.counterattack.getD t.counterattack
    special := u.special.getD t.special
    notes := u.notes.getD t.notes
    color := u.color.getD t.color
    playerid := t.playerid
    visible_to_players :=
      match u.visible_to_players with
      | some b => some b
      | none => t.visible_to_players
    timestamp := t.timestamp }

/-- The broadcast loop of `token:update` (server.js lines 246-261): a DM
session always gets `token:updated`; a player session gets `token:updated`
when the merged token is still player-visible and `token:removed` when it
is not; a session with any other role gets nothing. -/
def tokenUpdateEmits (sessions : List Session) (t : Token) : List (Nat × Event) :=
  sessions.filterMap (fun c =>
    if c.isAuthenticated then
      if c.userRole == some "dm" then some (c.sid, .tokenUpdated t)
      else if c.userRole == some "player" then
        if t.visible_to_players != some false then some (c.sid, .tokenUpdated t)
        else some (c.sid, .tokenRemoved t.id)
      else none
    else none)

/-- Authorized body of `token:update` (server.js lines 213-262): silent
no-op for an unknown id; otherwise spread-merge in place and broadcast.
The store update only logs its outcome. -/
def updateTokenBody (st : ServerState) (u : TokenUpdateData) :
    ServerState × List (Nat × Event) :=
  match st.tokens.find? (fun t => t.id == u.id) with
  | none => (st, [])
  | some t0 =>
    let t := mergeToken t0 u
    let st' := { st with
      tokens := updateFirst (fun v => v.id == u.id) (fun v => mergeToken v u) st.tokens }
    (st', tokenUpdateEmits st'.sessions t)

/-- `socket.on('token:update')` (server.js lines 207-263). -/
def onTokenUpdate (st : ServerState) (sid : Nat) (u : TokenUpdateData)
    (_db : DbOutcome) : ServerState × List (Nat × Event) :=
  match findSession st sid with
  | none => (st, [])
  | some s =>
    if isDM s then updateTokenBody st u
    else (st, [(sid, .errMsg "Only DM can update tokens")])

/-- `socket.on('token:remove')` (server.js lines 266-282): filter the token
out (idempotent), then `io.emit('token:removed')` to every connected
session; the store delete only logs. -/
def tokenRemoveBody (st : ServerState) (tokenId : Nat) : ServerState × List (Nat × Event) :=
  let st' := { st with tokens := st.tokens.filter (fun t => t.id != tokenId) }
  (st', emitAll st'.sessions (.tokenRemoved tokenId))

/-- `socket.on('token:remove')` guard wiring (server.js lines 266-270). -/
def onTokenRemove (st : ServerState) (sid : Nat) (tokenId : Nat)
    (_db : DbOutcome) : ServerState × List (Nat × Event) :=
  match findSession st sid with
  | none => (st, [])
  | some s =>
    if isDM s then tokenRemoveBody st tokenId
    else (st, [(sid, .errMsg "Only DM can remove tokens")])

/-- The JS spread merge `{...f, ...d}` of `faction_stats:update` (server.js
line 303). -/
def mergeFaction (f : FactionStats) (d : FactionUpdateData) : FactionStats :=
  { id := f.id
    faction_name := d.faction_name
    current_hp := d.current_hp.getD f.current_hp
    max_hp := d.max_hp.getD f.max_hp
    force_stat := d.force_stat.getD f.force_stat
    wealth_stat := d.wealth_stat.getD f.wealth_stat
    cunning_stat := d.cunning_stat.getD f.cunning_stat
    magic_stat := d.magic_stat.getD f.magic_stat
    treasure_stat := d.treasure_stat.getD f.treasure_stat
    is_visible :=
      match d.is_visible with
      | some b => some b
      | none => f.is_visible }

/-- The new-faction object literal of `faction_stats:update` (server.js
lines 333-344): `||` defaults for the stats, `is_visible || false` yields a
definite boolean. -/
def buildNewFaction (st : ServerState) (d : FactionUpdateData) : FactionStats :=
  { id := st.factionStatsIdCounter
    faction_name := d.faction_name
    current_hp := jsOrInt d.current_hp 0
    max_hp := jsOrInt d.max_hp 0
    force_stat := jsOrInt d.force_stat 0
    wealth_stat := jsOrInt d.wealth_stat 0
    cunning_stat := jsOrInt d.cunning_stat 0
    magic_stat := jsOrStr d.magic_stat "None"
    treasure_stat := jsOrInt d.treasure_stat 0
    is_visible := some (d.is_visible == some true) }

/-- The broadcast loop of `faction_stats:update` (server.js lines 370-388):
DM sessions always receive `faction_stats:updated`; player sessions only
when the record's `is_visible` is truthy. -/
def factionEmits (sessions : List Session) (f : FactionStats) : List (Nat × Event) :=
  sessions.filterMap (fun c =>
    if c.isAuthenticated then
      if c.userRole == some "dm" then some (c.sid, .factionStatsUpdated f)
      else if c.userRole == some "player" && f.is_visible == some true then
        some (c.sid, .factionStatsUpdated f)
      else none
    else none)

/-- Authorized body of `faction_stats:update` (server.js lines 296-395):
upsert keyed on `faction_name` (the in-memory mutation precedes the store
call in both branches); a thrown store call skips the broadcast and reports
a failure to the caller, a store error result is only logged. -/
def factionStatsUpdateBody (st : ServerState) (sid : Nat) (d : FactionUpdateData)
    (db : DbOutcome) : ServerState × List (Nat × Event) :=
  match st.factionStats.find? (fun f => f.faction_name == d.faction_name) with
  | some f0 =>
    let f := mergeFaction f0 d
    let st' := { st with
      factionStats := updateFirst (fun g => g.faction_name == d.faction_name)
        (fun g => mergeFaction g d) st.factionStats }
    if db == .exn then (st', [(sid, .errMsg "Failed to update faction stats")])
    else (st', factionEmits st'.sessions f)
  | none =>
    let f := buildNewFaction st d
    let st' := { st with
      factionStats := st.factionStats ++ [f],
      factionStatsIdCounter := st.factionStatsIdCounter + 1 }
    if db == .exn then (st', [(sid, .errMsg "Failed to update faction stats")])
    else (st', factionEmits st'.sessions f)

/-- `socket.on('faction_stats:update')` (server.js lines 285-396). -/
def onFactionStatsUpdate (st : ServerState) (sid : Nat) (d : FactionUpdateData)
    (db : DbOutcome) : ServerState × List (Nat × Event) :=
  match findSession st sid with
  | none => (st, [])
  | some s =>
    if isDM s then factionStatsUpdateBody st sid d db
    else (st, [(sid, .errMsg "Only DM can update faction stats")])

/-- `socket.on('faction_stats:delete')` (server.js lines 399-420): the
in-memory filter precedes the store delete, so a thrown store call leaves
the record deleted but skips the `io.emit` and reports a failure. -/
def factionStatsDeleteBody (st : ServerState) (sid : Nat) (name : String)
    (db : DbOutcome) : ServerState × List (Nat × Event) :=
  let st' := { st with factionStats := st.factionStats.filter (fun f => f.faction_name != name) }
  if db == .exn then (st', [(sid, .errMsg "Failed to delete faction stats")])
  else (st', emitAll st'.sessions (.factionStatsDeleted name))

/-- `socket.on('faction_stats:delete')` guard wiring (lines 399-403). -/
def onFactionStatsDelete (st : ServerState) (sid : Nat) (name : String)
    (db : DbOutcome) : ServerState × List (Nat × Event) :=
  match findSession st sid with
  | none => (st, [])
  | some s =>
    if isDM s then factionStatsDeleteBody st sid name db
    else (st, [(sid, .errMsg "Only DM can delete faction stats")])

/-- The proposal row produced by the store insert of `move_proposal:create`
(server.js lines 439-452): the handler's object literal plus the
store-assigned id. -/
def buildProposal (st : ServerState) (sid : Nat) (d : ProposalCreateData) : MoveProposal :=
  { id := st.proposalIdCounter
    token_id := d.token_id
    original_x := d.original_x
    original_y := d.original_y
    proposed_x := d.proposed_x
    proposed_y := d.proposed_y
    proposed_by_session := sid }

/-- Authorized body of `move_proposal:create` (server.js lines 434-469).
The store delete for the superseded proposal runs first, so a thrown store
call changes nothing; after the in-memory supersede filter, an insert error
result aborts with an error reply (no push, no broadcast); on success the
returned row is pushed and `move_proposal:created` is `io.emit`-broadcast. -/
def proposalCreateBody (st : ServerState) (sid : Nat) (d : ProposalCreateData)
    (db : DbOutcome) : ServerState × List (Nat × Event) :=
  if db == .exn then (st, [(sid, .errMsg "Failed to create move proposal")])
  else
    let stDel := { st with
      moveProposals := st.moveProposals.filter (fun p => p.token_id != d.token_id) }
    if db == .err then (stDel, [(sid, .errMsg "Failed to create move proposal")])
    else
      let p := buildProposal st sid d
      let st' := { stDel with
        moveProposals := stDel.moveProposals ++ [p],
        proposalIdCounter := st.proposalIdCounter + 1 }
      (st', emitAll st'.sessions (.proposalCreated p))

/-- `socket.on('move_proposal:create')` (server.js lines 423-470): gated on
`socket.userRole !== 'player'`. -/
def onProposalCreate (st : ServerState) (sid : Nat) (d : ProposalCreateData)
    (db : DbOutcome) : ServerState × List (Nat × Event) :=
  match findSession st sid with
  | none => (st, [])
  | some s =>
    if s.userRole == some "player" then proposalCreateBody st sid d db
    else (st, [(sid, .errMsg "Only players can create move proposals")])

/-- `socket.on('move_proposal:update')` (server.js lines 473-512): looks a
live proposal up by `token_id`, replying with an error when none exists;
the in-memory coordinate mutation precedes the store update, so a thrown
store call leaves the mutation in place but skips the broadcast. -/
def proposalUpdateBody (st : ServerState) (sid : Nat) (tokenId : Nat) (px py : Int)
    (db : DbOutcome) : ServerState × List (Nat × Event) :=
  match st.moveProposals.find? (fun p => p.token_id == tokenId) with
  | none => (st, [(sid, .errMsg "No existing proposal found")])
  | some p0 =>
    let p := { p0 with proposed_x := px, proposed_y := py }
    let st' := { st with
      moveProposals := updateFirst (fun q => q.token_id == tokenId)
        (fun q => { q with proposed_x := px, proposed_y := py }) st.moveProposals }
    if db == .exn then (st', [(sid, .errMsg "Failed to update move proposal")])
    else (st', emitAll st'.sessions (.proposalUpdated p))

/-- `socket.on('move_proposal:update')` guard wiring (lines 477-481). -/
def onProposalUpdate (st : ServerState) (sid : Nat) (tokenId : Nat) (px py : Int)
    (db : DbOutcome) : ServerState × List (Nat × Event) :=
  match findSession st sid with
  | none => (st, [])
  | some s =>
    if s.userRole == some "player" then proposalUpdateBody st sid tokenId px py db
    else (st, [(sid, .errMsg "Only players can update move proposals")])

/-- Authorized body of `move_proposal:approve` (server.js lines 523-567):
error reply when the proposal id is unknown; otherwise, when the referenced
token still exists it is moved to the proposed coordinates (in memory,
before the first store call) and `token:moved` is broadcast through the
visibility filter; in either case the proposal is then deleted and
`move_proposal:approved` is `io.emit`-broadcast.  A thrown store call lands
in the catch block at whatever point had been reached. -/
def proposalApproveBody (st : ServerState) (sid : Nat) (pid : Nat)
    (db : DbOutcome) : ServerState × List (Nat × Event) :=
  match st.moveProposals.find? (fun p => p.id == pid) with
  | none => (st, [(sid, .errMsg "Proposal not found")])
  | some p =>
    match st.tokens.find? (fun t => t.id == p.token_id) with
    | some t0 =>
      let t := { t0 with x := p.proposed_x, y := p.proposed_y }
      let st1 := { st with
        tokens := updateFirst (fun u => u.id == p.token_id)
          (fun u => { u with x := p.proposed_x, y := p.proposed_y }) st.tokens }
      if db == .exn then (st1, [(sid, .errMsg "Failed to approve move proposal")])
      else
        let moveEmits := tokenVisEmits st1.sessions t.visible_to_players
          (.tokenMoved p.token_id p.proposed_x p.proposed_y)
        let st2 := { st1 with moveProposals := st1.moveProposals.filter (fun q => q.id != pid) }
        (st2, moveEmits ++ emitAll st2.sessions (.proposalApproved pid))
    | none =>
      if db == .exn then (st, [(sid, .errMsg "Failed to approve move proposal")])
      else
        let st2 := { st with moveProposals := st.moveProposals.filter (fun q => q.id != pid) }
        (st2, emitAll st2.sessions (.proposalApproved pid))

/-- `socket.on('move_proposal:approve')` (server.js lines 515-568). -/
def onProposalApprove (st : ServerState) (sid : Nat) (pid : Nat)
    (db : DbOutcome) : ServerState × List (Nat × Event) :=
  match findSession st sid with
  | none => (st, [])
  | some s =>
    if isDM s then proposalApproveBody st sid pid db
    else (st, [(sid, .errMsg "Only DM can approve move proposals")])

/-- `socket.on('move_proposal:reject')` (server.js lines 571-592): the
store delete precedes the in-memory filter, so a thrown store call changes
nothing and reports a failure; otherwise the proposal is filtered out and
`move_proposal:rejected` is `io.emit`-broadcast. -/
def proposalRejectBody (st : ServerState) (sid : Nat) (pid : Nat)
    (db : DbOutcome) : ServerState × List (Nat × Event) :=
  if db == .exn then (st, [(sid, .errMsg "Failed to reject move proposal")])
  else
    let st' := { st with moveProposals := st.moveProposals.filter (fun q => q.id != pid) }
    (st', emitAll st'.sessions (.proposalRejected pid))

/-- `socket.on('move_proposal:reject')` guard wiring (lines 574-577). -/
def onProposalReject (st : ServerState) (sid : Nat) (pid : Nat)
    (db : DbOutcome) : ServerState × List (Nat × Event) :=
  match findSession st sid with
  | none => (st, [])
  | some s =>
    if isDM s then proposalRejectBody st sid pid db
    else (st, [(sid, .errMsg "Only DM can reject move proposals")])

/-- `socket.on('move_proposal:cancel')` (server.js lines 595-616): same
state effect as reject, gated on the player role, and — notably — it also
broadcasts `move_proposal:rejected` (line 609), not a cancel-specific
event. -/
def proposalCancelBody (st : ServerState) (sid : Nat) (pid : Nat)
    (db : DbOutcome) : ServerState × List (Nat × Event) :=
  if db == .exn then (st, [(sid, .errMsg "Failed to cancel move proposal")])
  else
    let st' := { st with moveProposals := st.moveProposals.filter (fun q => q.id != pid) }
    (st', emitAll st'.sessions (.proposalRejected pid))

/-- `socket.on('move_proposal:cancel')` guard wiring (lines 598-601). -/
def onProposalCancel (st : ServerState) (sid : Nat) (pid : Nat)
    (db : DbOutcome) : ServerState × List (Nat × Event) :=
  match findSession st sid with
  | none => (st, [])
  | some s =>
    if s.userRole == some "player" then proposalCancelBody st sid pid db
    else (st, [(sid, .errMsg "Only players can cancel move proposals")])

def clearAllBody (st : ServerState) (sid : Nat) (db : DbOutcome) :
    ServerState × List (Nat × Event) :=
  if db == .exn then (st, [(sid, .errMsg "Failed to clear all proposals")])
  else
    let st' := { st with moveProposals := [] }
    (st', emitAll st'.sessions .proposalsCleared)

/-- `socket.on('move_proposals:clear_all')` (server.js lines 619-640). -/
def onClearAllProposals (st : ServerState) (sid : Nat)
    (db : DbOutcome) : ServerState × List (Nat × Event) :=
  match findSession st sid with
  | none => (st, [])
  | some s =>
    if isDM s then clearAllBody st sid db
    else (st, [(sid, .errMsg "Only DM can clear all proposals")])

def movableFactionsBody (st : ServerState) (sid : Nat) (cfg : List MovableFaction)
    (db : DbOutcome) : ServerState × List (Nat × Event) :=
  if db == .exn then (st, [(sid, .errMsg "Failed to update movable factions")])
  else
    let st' := { st with movableFactionsConfig := cfg }
    (st', emitAll st'.sessions (.movableFactionsUpdated cfg))

/-- `socket.on('movable_factions:update')` (server.js lines 643-671):
wholesale replacement of the config after the store calls, so a thrown
store call changes nothing and reports a failure. -/
def onMovableFactionsUpdate (st : ServerState) (sid : Nat) (cfg : List MovableFaction)
    (db : DbOutcome) : ServerState × List (Nat × Event) :=
  match findSession st sid with
  | none => (st, [])
  | some s =>
    if isDM s then movableFactionsBody st sid cfg db
    else (st, [(sid, .errMsg "Only DM can configure movable factions")])

/-- A client action arriving at the event dispatcher, including connection
lifecycle.  The transport guarantees socket ids are unique, which `connect`
models by ignoring a duplicate id. -/
inductive Action where
  | connect (sid : Nat)
  | disconnect (sid : Nat)
  | authenticate (sid : Nat) (password : String) (role : Option String)
  | setRole (sid : Nat) (role : String)
  | requestTokens (sid : Nat)
  | tokenPlace (sid : Nat) (d : TokenPlaceData) (now : String) (db : DbOutcome)
  | tokenMove (sid : Nat) (tokenId : Nat) (x y : Int) (db : DbOutcome)
  | tokenUpdate (sid : Nat) (u : TokenUpdateData) (db : DbOutcome)
  | tokenRemove (sid : Nat) (tokenId : Nat) (db : DbOutcome)
  | factionUpdate (sid : Nat) (d : FactionUpdateData) (db : DbOutcome)
  | factionDelete (sid : Nat) (name : String) (db : DbOutcome)
  | proposalCreate (sid : Nat) (d : ProposalCreateData) (db : DbOutcome)
  | proposalUpdate (sid : Nat) (tokenId : Nat) (px py : Int) (db : DbOutcome)
  | proposalApprove (sid : Nat) (pid : Nat) (db : DbOutcome)
  | proposalReject (sid : Nat) (pid : Nat) (db : DbOutcome)
  | proposalCancel (sid : Nat) (pid : Nat) (db : DbOutcome)
  | clearAll (sid : Nat) (db : DbOutcome)
  | movableUpdate (sid : Nat) (cfg : List MovableFaction) (db : DbOutcome)

/-- Dispatch one action to its handler (the `socket.on` wiring of
server.js; `connect`/`disconnect` are lines 43-48 and 673-675). -/
def stepAction (dmPassword : String) (st : ServerState) (a : Action) :
    ServerState × List (Nat × Event) :=
  match a with
  | .connect sid =>
    if st.sessions.any (fun c => c.sid == sid) then (st, [])
    else ({ st with sessions := st.sessions ++ [{ sid := sid, isAuthenticated := false, userRole := none }] }, [])
  | .disconnect sid => ({ st with sessions := st.sessions.filter (fun c => c.sid != sid) }, [])
  | .authenticate sid password role => onAuthenticate dmPassword st sid password role
  | .setRole sid role => onSetRole st sid role
  | .requestTokens sid => onRequestTokens st sid
  | .tokenPlace sid d now db => onTokenPlace st sid d now db
  | .tokenMove sid tokenId x y db => onTokenMove st sid tokenId x y db
  | .tokenUpdate sid u db => onTokenUpdate st sid u db
  | .tokenRemove sid tokenId db => onTokenRemove st sid tokenId db
  | .factionUpdate sid d db => onFactionStatsUpdate st sid d db
  | .factionDelete sid name db => onFactionStatsDelete st sid name db
  | .proposalCreate sid d db => onProposalCreate st sid d db
  | .proposalUpdate sid tokenId px py db => onProposalUpdate st sid tokenId px py db
  | .proposalApprove sid pid db => onProposalApprove st sid pid db
  | .proposalReject sid pid db => onProposalReject st sid pid db
  | .proposalCancel sid pid db => onProposalCancel st sid pid db
  | .clearAll sid db => onClearAllProposals st sid db
  | .movableUpdate sid cfg db => onMovableFactionsUpdate st sid cfg db

/-- The server's startup state when the durable store is empty or
unreachable (server.js lines 31-40; startup load failure is non-fatal and
leaves the collections empty). -/
def initState : ServerState :=
  { tokens := []
    tokenIdCounter := 1
    factionStats := []
    factionStatsIdCounter := 1
    moveProposals := []
    movableFactionsConfig := []
    proposalIdCounter := 1
    sessions := [] }

/-- States reachable from startup by dispatching client actions. -/
inductive Reachable (dmPassword : String) : ServerState → Prop where
  | init : Reachable dmPassword initState
  | step (st : ServerState) (a : Action) (h : Reachable dmPassword st) :
      Reachable dmPassword (stepAction dmPassword st a).1

/-- The proposal-uniqueness invariant: the `token_id`s of the live move
proposals are pairwise distinct. -/
def MPUnique (ps : List MoveProposal) : Prop :=
  (ps.map (fun p => p.token_id)).Nodup

/-! Concrete sessions and states used by witnesses and counterexamples. -/

def dmSession : Session := { sid := 1, isAuthenticated := true, userRole := some "dm" }

def playerSession : Session := { sid := 2, isAuthenticated := true, userRole := some "player" }

/-- A connected socket that never authenticated. -/
def ghostSession : Session := { sid := 3, isAuthenticated := false, userRole := none }

def sampleToken : Token :=
  { id := 1, x := 100, y := 200, name := "Orc", faction := "", hp := 0, max_hp := 0,
    current_hp := 0, attack := "0", counterattack := "0", special := "", notes := "",
    color := "#FF0000", playerid := 1, visible_to_players := some true, timestamp := "t0" }

def sampleProposal : MoveProposal :=
  { id := 1, token_id := 1, original_x := 100, original_y := 200,
    proposed_x := 50, proposed_y := 50, proposed_by_session := 2 }

def sampleFaction : FactionStats :=
  { id := 1, faction_name := "Iron Legion", current_hp := 85, max_hp := 100,
    force_stat := 8, wealth_stat := 4, cunning_stat := 3, magic_stat := "Low",
    treasure_stat := 6, is_visible := some true }

def sampleState : ServerState :=
  { tokens := [sampleToken]
    tokenIdCounter := 2
    factionStats := [sampleFaction]
    factionStatsIdCounter := 2
    moveProposals := [sampleProposal]
    movableFactionsConfig := []
    proposalIdCounter := 2
    sessions := [dmSession, playerSession, ghostSession] }

/-- C1's authorization-table behavior as established by the code: every
role-gated action, when its predicate fails, replies with exactly one
rejection event to the requesting session (naming the action), leaves the
state untouched, and broadcasts nothing — except the snapshot request,
which is silently dropped. -/
def RejectionSpec (st : ServerState) (sid : Nat) (s : Session) : Prop :=
  (isDM s = false →
    (∀ d now db, onTokenPlace st sid d now db = (st, [(sid, .errMsg "Only DM can place tokens")])) ∧
    (∀ tid x y db, onTokenMove st sid tid x y db = (st, [(sid, .errMsg "Only DM can move tokens")])) ∧
    (∀ u db, onTokenUpdate st sid u db = (st, [(sid, .errMsg "Only DM can update tokens")])) ∧
    (∀ tid db, onTokenRemove st sid tid db = (st, [(sid, .errMsg "Only DM can remove tokens")])) ∧
    (∀ d db, onFactionStatsUpdate st sid d db = (st, [(sid, .errMsg "Only DM can update faction stats")])) ∧
    (∀ name db, onFactionStatsDelete st sid name db = (st, [(sid, .errMsg "Only DM can delete faction stats")])) ∧
    (∀ pid db, onProposalApprove st sid pid db = (st, [(sid, .errMsg "Only DM can approve move proposals")])) ∧
    (∀ pid db, onProposalReject st sid pid db = (st, [(sid, .errMsg "Only DM can reject move proposals")])) ∧
    (∀ db, onClearAllProposals st sid db = (st, [(sid, .errMsg "Only DM can clear all proposals")])) ∧
    (∀ cfg db, onMovableFactionsUpdate st sid cfg db = (st, [(sid, .errMsg "Only DM can configure movable factions")]))) ∧
  ((s.userRole == some "player") = false →
    (∀ d db, onProposalCreate st sid d db = (st, [(sid, .errMsg "Only players can create move proposals")])) ∧
    (∀ tid px py db, onProposalUpdate st sid tid px py db = (st, [(sid, .errMsg "Only players can update move proposals")])) ∧
    (∀ pid db, onProposalCancel st sid pid db = (st, [(sid, .errMsg "Only players can cancel move proposals")]))) ∧
  (s.isAuthenticated = false → onRequestTokens st sid = (st, []))

/-- Session `sid` passes the guard of every DM-only handler: each handler
runs its authorized body rather than the rejection branch. -/
def DMActionsPermitted (st' : ServerState) (sid : Nat) : Prop :=
  (∀ d now db, onTokenPlace st' sid d now db = placeTokenBody st' sid d now) ∧
  (∀ tid x y db, onTokenMove st' sid tid x y db = moveTokenBody st' tid x y) ∧
  (∀ u db, onTokenUpdate st' sid u db = updateTokenBody st' u) ∧
  (∀ tid db, onTokenRemove st' sid tid db = tokenRemoveBody st' tid) ∧
  (∀ d db, onFactionStatsUpdate st' sid d db = factionStatsUpdateBody st' sid d db) ∧
  (∀ name db, onFactionStatsDelete st' sid name db = factionStatsDeleteBody st' sid name db) ∧
  (∀ pid db, onProposalApprove st' sid pid db = proposalApproveBody st' sid pid db) ∧
  (∀ pid db, onProposalReject st' sid pid db = proposalRejectBody st' sid pid db) ∧
  (∀ db, onClearAllProposals st' sid db = clearAllBody st' sid db) ∧
  (∀ cfg db, onMovableFactionsUpdate st' sid cfg db = movableFactionsBody st' sid cfg db)

/-- C3's description of `authenticate(role, credential)` on a fresh
session: DM succeeds exactly on the matching secret, player always
succeeds, any other role fails with `auth_result{success:false}` and
changes nothing. -/
def AuthSpec (dmp : String) (st : ServerState) (sid : Nat) : Prop :=
  (∀ password, password = dmp →
    onAuthenticate dmp st sid password (some "dm")
      = (mapSession st sid (fun c => { c with isAuthenticated := true, userRole := some "dm" }),
         [(sid, .authResult true (some "dm") none)]) ∧
    findSession (onAuthenticate dmp st sid password (some "dm")).1 sid
      = some { sid := sid, isAuthenticated := true, userRole := some "dm" }) ∧
  (∀ password, password ≠ dmp →
    onAuthenticate dmp st sid password (some "dm")
      = (st, [(sid, .authResult false none (some "Invalid DM password"))])) ∧
  (∀ password,
    onAuthenticate dmp st sid password (some "player")
      = (mapSession st sid (fun c => { c with isAuthenticated := true, userRole := some "player" }),
         [(sid, .authResult true (some "player") none)]) ∧
    findSession (onAuthenticate dmp st sid password (some "player")).1 sid
      = some { sid := sid, isAuthenticated := true, userRole := some "player" }) ∧
  (∀ password role, role ≠ some "dm" → role ≠ some "player" →
    onAuthenticate dmp st sid password role
      = (st, [(sid, .authResult false none (some "Invalid role"))]))

/-- A concrete state reached from startup: a socket connects, authenticates
as a player, and files two successive move proposals for token 5. -/
def reachedState : ServerState :=
  (stepAction "hunter2"
    (stepAction "hunter2"
      (stepAction "hunter2"
        (stepAction "hunter2" initState (.connect 2)).1
        (.authenticate 2 "x" (some "player"))).1
      (.proposalCreate 2 { token_id := 5, original_x := 0, original_y := 0, proposed_x := 10, proposed_y := 10 } .ok)).1
    (.proposalCreate 2 { token_id := 5, original_x := 1, original_y := 1, proposed_x := 30, proposed_y := 40 } .ok)).1

/-- C5's description of a DM-invoked `move_proposal:approve`: unknown id
fails with a not-found error and changes nothing; otherwise the proposal is
always deleted without any error reply, the referenced token (when still
present) is moved to the proposed coordinates, and a vanished token leaves
the token collection untouched. -/
def ApproveSpec (st : ServerState) (sid : Nat) (pid : Nat) (db : DbOutcome) : Prop :=
  (st.moveProposals.find? (fun p => p.id == pid) = none →
    onProposalApprove st sid pid db = (st, [(sid, .errMsg "Proposal not found")])) ∧
  (∀ p, st.moveProposals.find? (fun q => q.id == pid) = some p →
    ((onProposalApprove st sid pid db).1.moveProposals
        = st.moveProposals.filter (fun q => q.id != pid)) ∧
    (∀ x m, (x, Event.errMsg m) ∉ (onProposalApprove st sid pid db).2) ∧
    (∀ t0, st.tokens.find? (fun t => t.id == p.token_id) = some t0 →
      (onProposalApprove st sid pid db).1.tokens.find? (fun t => t.id == p.token_id)
        = some { t0 with x := p.proposed_x, y := p.proposed_y }) ∧
    (st.tokens.find? (fun t => t.id == p.token_id) = none →
      (onProposalApprove st sid pid db).1.tokens = st.tokens))

/-- C6's persistence-independence property as it actually holds: the four
token handlers ignore the store outcome entirely, and every other handler
except `move_proposal:create` behaves identically whether the store call
returns success or an error result. -/
def PersistenceIndependence (st : ServerState) (sid : Nat) : Prop :=
  (∀ d now db db', onTokenPlace st sid d now db = onTokenPlace st sid d now db') ∧
  (∀ tid x y db db', onTokenMove st sid tid x y db = onTokenMove st sid tid x y db') ∧
  (∀ u db db', onTokenUpdate st sid u db = onTokenUpdate st sid u db') ∧
  (∀ tid db db', onTokenRemove st sid tid db = onTokenRemove st sid tid db') ∧
  (∀ d, onFactionStatsUpdate st sid d .ok = onFactionStatsUpdate st sid d .err) ∧
  (∀ name, onFactionStatsDelete st sid name .ok = onFactionStatsDelete st sid name .err) ∧
  (∀ tid px py, onProposalUpdate st sid tid px py .ok = onProposalUpdate st sid tid px py .err) ∧
  (∀ pid, onProposalApprove st sid pid .ok = onProposalApprove st sid pid .err) ∧
  (∀ pid, onProposalReject st sid pid .ok = onProposalReject st sid pid .err) ∧
  (∀ pid, onProposalCancel st sid pid .ok = onProposalCancel st sid pid .err) ∧
  (onClearAllProposals st sid .ok = onClearAllProposals st sid .err) ∧
  (∀ cfg, onMovableFactionsUpdate st sid cfg .ok = onMovableFactionsUpdate st sid cfg .err)

/-- C7's two filter polarities, observed through the snapshot request: a DM
gets both collections whole; a player gets exactly the tokens whose
`visible_to_players` is not `false` (absent field included) and exactly the
faction records whose `is_visible` is `true` (absent field excluded). -/
def SnapshotFilterSpec (st : ServerState) (sid : Nat) (s : Session) : Prop :=
  (s.userRole = some "dm" →
    (onRequestTokens st sid).2
      = [(sid, .tokensLoad st.tokens), (sid, .factionStatsLoad st.factionStats)]) ∧
  (s.userRole = some "player" →
    (onRequestTokens st sid).2
      = [(sid, .tokensLoad (visibleTokens st.tokens)),
         (sid, .factionStatsLoad (visibleFactions st.factionStats))]) ∧
  (∀ t, t ∈ visibleTokens st.tokens ↔ t ∈ st.tokens ∧ t.visible_to_players ≠ some false) ∧
  (∀ t, t ∈ st.tokens → t.visible_to_players = none → t ∈ visibleTokens st.tokens) ∧
  (∀ f, f ∈ visibleFactions st.factionStats ↔ f ∈ st.factionStats ∧ f.is_visible = some true) ∧
  (∀ f, f ∈ st.factionStats → f.is_visible = none → f ∉ visibleFactions st.factionStats)

/-- C8's broadcast rule for `token:update` on an existing token: every
authenticated DM session receives `token:updated` with the merged token;
when the merge leaves the token player-hidden, every authenticated player
session receives `token:removed` instead of the update; when it is still
(or newly) player-visible, player sessions receive the normal update. -/
def UpdateBroadcastSpec (st : ServerState) (sid : Nat) (u : TokenUpdateData)
    (t0 : Token) (db : DbOutcome) : Prop :=
  (∀ c ∈ st.sessions, c.isAuthenticated = true → c.userRole = some "dm" →
    (c.sid, Event.tokenUpdated (mergeToken t0 u)) ∈ (onTokenUpdate st sid u db).2) ∧
  (t0.visible_to_players = some true → (mergeToken t0 u).visible_to_players = some false →
    ∀ c ∈ st.sessions, c.isAuthenticated = true → c.userRole = some "player" →
      (c.sid, Event.tokenRemoved (mergeToken t0 u).id) ∈ (onTokenUpdate st sid u db).2 ∧
      (c.sid, Event.tokenUpdated (mergeToken t0 u)) ∉ (onTokenUpdate st sid u db).2) ∧
  ((mergeToken t0 u).visible_to_players ≠ some false →
    ∀ c ∈ st.sessions, c.isAuthenticated = true → c.userRole = some "player" →
      (c.sid, Event.tokenUpdated (mergeToken t0 u)) ∈ (onTokenUpdate st sid u db).2)

/-- C10's broadcast rule as the code implements it: deletion, proposal
lifecycle and config events are `io.emit`-delivered to every *connected*
session — the authenticated and the unauthenticated alike. `sidD` is a DM
session id and `sidP` a player session id. -/
def UnfilteredBroadcastSpec (st : ServerState) (sidD sidP : Nat) : Prop :=
  (∀ tid db, (onTokenRemove st sidD tid db).2 = emitAll st.sessions (.tokenRemoved tid)) ∧
  (∀ name db, db ≠ DbOutcome.exn →
    (onFactionStatsDelete st sidD name db).2 = emitAll st.sessions (.factionStatsDeleted name)) ∧
  (∀ d, (onProposalCreate st sidP d .ok).2
    = emitAll st.sessions (.proposalCreated (buildProposal st sidP d))) ∧
  (∀ tid px py p0 db, db ≠ DbOutcome.exn →
    st.moveProposals.find? (fun p => p.token_id == tid) = some p0 →
    (onProposalUpdate st sidP tid px py db).2
      = emitAll st.sessions (.proposalUpdated { p0 with proposed_x := px, proposed_y := py })) ∧
  (∀ pid p db, db ≠ DbOutcome.exn →
    st.moveProposals.find? (fun q => q.id == pid) = some p →
    ∀ c ∈ st.sessions, (c.sid, Event.proposalApproved pid) ∈ (onProposalApprove st sidD pid db).2) ∧
  (∀ pid db, db ≠ DbOutcome.exn →
    (onProposalReject st sidD pid db).2 = emitAll st.sessions (.proposalRejected pid)) ∧
  (∀ pid db, db ≠ DbOutcome.exn →
    (onProposalCancel st sidP pid db).2 = emitAll st.sessions (.proposalRejected pid)) ∧
  (∀ db, db ≠ DbOutcome.exn →
    (onClearAllProposals st sidD db).2 = emitAll st.sessions .proposalsCleared) ∧
  (∀ cfg db, db ≠ DbOutcome.exn →
    (onMovableFactionsUpdate st sidD cfg db).2 = emitAll st.sessions (.movableFactionsUpdated cfg))

/-! ## Theorems -/

/-- `findSession` after `mapSession` at the same id yields the mapped
session, provided the map preserves socket ids. -/
theorem find?_map_cond (l : List Session) (sid : Nat) (f : Session → Session)
    (hf : ∀ c, (f c).sid = c.sid) :
    (l.map (fun c => if c.sid == sid then f c else c)).find? (fun c => c.sid == sid)
      = (l.find? (fun c => c.sid == sid)).map f := by
  induction l with
  | nil => rfl
  | cons a as ih =>
    by_cases h : (a.sid == sid) = true
    · have hga : (if a.sid == sid then f a else a) = f a := by simp [h]
      have h2 : ((f a).sid == sid) = true := by rw [hf]; exact h
      rw [List.map_cons, hga]
      simp only [List.find?, h2, h, Option.map_some']
    · have hga : (if a.sid == sid then f a else a) = a := by simp [h]
      have h2 : (a.sid == sid) = false := by simpa using h
      rw [List.map_cons, hga]
      simp only [List.find?, h2]
      exact ih

theorem findSession_mapSession (st : ServerState) (sid : Nat) (f : Session → Session)
    (hf : ∀ c, (f c).sid = c.sid) :
    findSession (mapSession st sid f) sid = (findSession st sid).map f :=
  find?_map_cond st.sessions sid f hf

/-- C1 (corrected): for a connected session that fails an action's required
predicate, every action of the authorization table except the snapshot
request replies with a single rejection event (naming the action) to the
requesting session only, mutating nothing and broadcasting nothing; the
snapshot request (`request_tokens`) is silently ignored instead of being
rejected. -/
theorem unauthorized_actions_rejected (st : ServerState) (sid : Nat) (s : Session)
    (hfind : findSession st sid = some s) : RejectionSpec st sid s := by
  refine ⟨fun hdm => ?_, fun hrole => ?_, fun hauth => ?_⟩
  · exact ⟨fun d now db => by simp [onTokenPlace, hfind, hdm],
      fun tid x y db => by simp [onTokenMove, hfind, hdm],
      fun u db => by simp [onTokenUpdate, hfind, hdm],
      fun tid db => by simp [onTokenRemove, hfind, hdm],
      fun d db => by simp [onFactionStatsUpdate, hfind, hdm],
      fun name db => by simp [onFactionStatsDelete, hfind, hdm],
      fun pid db => by simp [onProposalApprove, hfind, hdm],
      fun pid db => by simp [onProposalReject, hfind, hdm],
      fun db => by simp [onClearAllProposals, hfind, hdm],
      fun cfg db => by simp [onMovableFactionsUpdate, hfind, hdm]⟩
  · exact ⟨fun d db => by simp [onProposalCreate, hfind, hrole],
      fun tid px py db => by simp [onProposalUpdate, hfind, hrole],
      fun pid db => by simp [onProposalCancel, hfind, hrole]⟩
  · simp [onRequestTokens, hfind, hauth]

/-- Witness for C1's theorem at the unauthenticated connected session of
`sampleState`. -/
theorem unauthorized_actions_rejected_witness :
    findSession sampleState 3 = some ghostSession ∧ RejectionSpec sampleState 3 ghostSession :=
  ⟨by decide, unauthorized_actions_rejected sampleState 3 ghostSession (by decide)⟩

/-- C1 counterexample to the claim as stated: the snapshot request
(`request_tokens`) from the unauthenticated session 3 emits no rejection
event at all (and nothing else), although the claim requires a rejection
event naming the action. -/
theorem request_tokens_silent_drop_counterexample :
    onRequestTokens sampleState 3 = (sampleState, []) := by decide

/-- C3 (confirmed): on a fresh (unauthenticated, role-less) session,
`authenticate` with role `dm` succeeds iff the credential equals the
configured DM secret (setting the session to authenticated DM), role
`player` always succeeds (setting authenticated player), and any other
role value fails with `auth_result{success:false}` leaving the session's
authentication state and role unchanged. -/
theorem authenticate_fresh_session (dmp : String) (st : ServerState) (sid : Nat)
    (hfind : findSession st sid
      = some { sid := sid, isAuthenticated := false, userRole := none }) :
    AuthSpec dmp st sid := by
  refine ⟨fun password h => ?_, fun password h => ?_, fun password => ?_,
    fun password role h1 h2 => ?_⟩
  · constructor
    · simp [onAuthenticate, hfind, h]
    · have hst : (onAuthenticate dmp st sid password (some "dm")).1
          = mapSession st sid (fun c => { c with isAuthenticated := true, userRole := some "dm" }) := by
        simp [onAuthenticate, hfind, h]
      rw [hst,
        findSession_mapSession st sid
          (fun c => { c with isAuthenticated := true, userRole := some "dm" }) (fun c => rfl),
        hfind]
      rfl
  · simp [onAuthenticate, hfind, h]
  · constructor
    · simp [onAuthenticate, hfind]
    · have hst : (onAuthenticate dmp st sid password (some "player")).1
          = mapSession st sid (fun c => { c with isAuthenticated := true, userRole := some "player" }) := by
        simp [onAuthenticate, hfind]
      rw [hst,
        findSession_mapSession st sid
          (fun c => { c with isAuthenticated := true, userRole := some "player" }) (fun c => rfl),
        hfind]
      rfl
  · simp [onAuthenticate, hfind, h1, h2]

/-- Witness for C3's theorem: the fresh session 3 of `sampleState` against
the configured secret `hunter2`. -/
theorem authenticate_fresh_session_witness :
    findSession sampleState 3
      = some { sid := 3, isAuthenticated := false, userRole := none } ∧
    AuthSpec "hunter2" sampleState 3 :=
  ⟨by decide, authenticate_fresh_session "hunter2" sampleState 3 (by decide)⟩

/-- C2 (confirmed): any authenticated session — in particular one that
authenticated as a plain player and never presented the DM secret — that
sends `set_role` with role `dm` ends up with `userRole = "dm"` and no
credential is checked; `isDM` then holds for it and every DM-only handler
runs its authorized body for that session. -/
theorem set_role_grants_dm (st : ServerState) (sid : Nat) (s : Session)
    (hfind : findSession st sid = some s) (hauth : s.isAuthenticated = true) :
    findSession (onSetRole st sid "dm").1 sid = some { s with userRole := some "dm" } ∧
    isDM { s with userRole := some "dm" } = true ∧
    DMActionsPermitted (onSetRole st sid "dm").1 sid := by
  have hst : (onSetRole st sid "dm").1
      = mapSession st sid (fun c => { c with userRole := some "dm" }) := by
    simp [onSetRole, hfind, hauth]
  have hfind' : findSession (onSetRole st sid "dm").1 sid
      = some { s with userRole := some "dm" } := by
    rw [hst,
      findSession_mapSession st sid (fun c => { c with userRole := some "dm" }) (fun c => rfl),
      hfind]
    rfl
  have hdm : isDM { s with userRole := some "dm" } = true := by
    simp [isDM, hauth]
  refine ⟨hfind', hdm, ?_, ?_, ?_, ?_, ?_, ?_, ?_, ?_, ?_, ?_⟩
  · exact fun d now db => by simp [onTokenPlace, hfind', hdm]
  · exact fun tid x y db => by simp [onTokenMove, hfind', hdm]
  · exact fun u db => by simp [onTokenUpdate, hfind', hdm]
  · exact fun tid db => by simp [onTokenRemove, hfind', hdm]
  · exact fun d db => by simp [onFactionStatsUpdate, hfind', hdm]
  · exact fun name db => by simp [onFactionStatsDelete, hfind', hdm]
  · exact fun pid db => by simp [onProposalApprove, hfind', hdm]
  · exact fun pid db => by simp [onProposalReject, hfind', hdm]
  · exact fun db => by simp [onClearAllProposals, hfind', hdm]
  · exact fun cfg db => by simp [onMovableFactionsUpdate, hfind', hdm]

/-- `updateFirst` leaves any projection invariant that its mutator
preserves. -/
theorem map_updateFirst {α β} (g : α → β) (p : α → Bool) (f : α → α)
    (hg : ∀ a, g (f a) = g a) : ∀ l, (updateFirst p f l).map g = l.map g := by
  intro l
  induction l with
  | nil => rfl
  | cons a as ih =>
    by_cases h : p a = true
    · simp [updateFirst, h, hg a]
    · simp [updateFirst, h, ih]

theorem MPUnique_filter (ps : List MoveProposal) (q : MoveProposal → Bool)
    (h : MPUnique ps) : MPUnique (ps.filter q) :=
  h.sublist ((List.filter_sublist ps).map (fun p => p.token_id))

/-- Appending a fresh proposal for `tid` after filtering out every proposal
for `tid` keeps the token ids pairwise distinct. -/
theorem MPUnique_supersede (ps : List MoveProposal) (tid : Nat) (pNew : MoveProposal)
    (hid : pNew.token_id = tid) (h : MPUnique ps) :
    MPUnique ((ps.filter (fun p => p.token_id != tid)) ++ [pNew]) := by
  unfold MPUnique
  rw [List.map_append]
  refine List.Nodup.append (MPUnique_filter _ _ h) (by simp) ?_
  intro x hx hx2
  simp only [List.map_cons, List.map_nil, List.mem_singleton] at hx2
  obtain ⟨p, hp, rfl⟩ := List.mem_map.1 hx
  have hne : (p.token_id != tid) = true := (List.mem_filter.1 hp).2
  rw [hx2, hid] at hne
  simp at hne

/-- Filtering for `tid` right after filtering `tid` away yields nothing. -/
theorem filter_eq_after_filter_ne (l : List MoveProposal) (tid : Nat) :
    ((l.filter (fun p => p.token_id != tid)).filter (fun p => p.token_id == tid)) = [] := by
  induction l with
  | nil => rfl
  | cons a as ih =>
    by_cases h : a.token_id = tid
    · subst h
      simp [List.filter_cons, ih]
    · simp [List.filter_cons, h, ih]

theorem mp_onAuthenticate (dmp : String) (st : ServerState) (sid : Nat)
    (pw : String) (role : Option String) :
    (onAuthenticate dmp st sid pw role).1.moveProposals = st.moveProposals := by
  unfold onAuthenticate mapSession
  split
  · rfl
  · split
    · split <;> rfl
    · split <;> rfl

theorem mp_onSetRole (st : ServerState) (sid : Nat) (role : String) :
    (onSetRole st sid role).1.moveProposals = st.moveProposals := by
  unfold onSetRole mapSession
  split
  · rfl
  · split <;> rfl

theorem mp_onRequestTokens (st : ServerState) (sid : Nat) :
    (onRequestTokens st sid).1.moveProposals = st.moveProposals := by
  unfold onRequestTokens
  split
  · rfl
  · split <;> rfl

theorem mp_onTokenPlace (st : ServerState) (sid : Nat) (d : TokenPlaceData)
    (now : String) (db : DbOutcome) :
    (onTokenPlace st sid d now db).1.moveProposals = st.moveProposals := by
  unfold onTokenPlace placeTokenBody
  split
  · rfl
  · split <;> rfl

theorem mp_onTokenMove (st : ServerState) (sid : Nat) (tid : Nat) (x y : Int)
    (db : DbOutcome) :
    (onTokenMove st sid tid x y db).1.moveProposals = st.moveProposals := by
  unfold onTokenMove moveTokenBody
  split
  · rfl
  · split
    · split <;> rfl
    · rfl

theorem mp_onTokenUpdate (st : ServerState) (sid : Nat) (u : TokenUpdateData)
    (db : DbOutcome) :
    (onTokenUpdate st sid u db).1.moveProposals = st.moveProposals := by
  unfold onTokenUpdate updateTokenBody
  split
  · rfl
  · split
    · split <;> rfl
    · rfl

theorem mp_onTokenRemove (st : ServerState) (sid : Nat) (tid : Nat)
    (db : DbOutcome) :
    (onTokenRemove st sid tid db).1.moveProposals = st.moveProposals := by
  unfold onTokenRemove tokenRemoveBody
  split
  · rfl
  · split <;> rfl

theorem mp_onFactionStatsUpdate (st : ServerState) (sid : Nat)
    (d : FactionUpdateData) (db : DbOutcome) :
    (onFactionStatsUpdate st sid d db).1.moveProposals = st.moveProposals := by
  unfold onFactionStatsUpdate factionStatsUpdateBody
  split
  · rfl
  · split
    · split <;> split <;> rfl
    · rfl

theorem mp_onFactionStatsDelete (st : ServerState) (sid : Nat) (name : String)
    (db : DbOutcome) :
    (onFactionStatsDelete st sid name db).1.moveProposals = st.moveProposals := by
  unfold onFactionStatsDelete factionStatsDeleteBody
  split
  · rfl
  · split
    · split <;> rfl
    · rfl

theorem mp_onMovableFactionsUpdate (st : ServerState) (sid : Nat)
    (cfg : List MovableFaction) (db : DbOutcome) :
    (onMovableFactionsUpdate st sid cfg db).1.moveProposals = st.moveProposals := by
  unfold onMovableFactionsUpdate movableFactionsBody
  split
  · rfl
  · split
    · split <;> rfl
    · rfl

theorem MPUnique_onProposalCreate (st : ServerState) (sid : Nat)
    (d : ProposalCreateData) (db : DbOutcome) (h : MPUnique st.moveProposals) :
    MPUnique (onProposalCreate st sid d db).1.moveProposals := by
  unfold onProposalCreate proposalCreateBody
  split
  · exact h
  · split
    · split
      · exact h
      · split
        · exact MPUnique_filter _ _ h
        · exact MPUnique_supersede _ _ _ rfl h
    · exact h

theorem MPUnique_onProposalUpdate (st : ServerState) (sid : Nat) (tid : Nat)
    (px py : Int) (db : DbOutcome) (h : MPUnique st.moveProposals) :
    MPUnique (onProposalUpdate st sid tid px py db).1.moveProposals := by
  unfold onProposalUpdate proposalUpdateBody
  split
  · exact h
  · split
    · split
      · exact h
      · have hmap : MPUnique (updateFirst (fun q => q.token_id == tid)
            (fun q => { q with proposed_x := px, proposed_y := py }) st.moveProposals) := by
          unfold MPUnique
          rw [map_updateFirst (fun p : MoveProposal => p.token_id)
            (fun q : MoveProposal => q.token_id == tid)
            (fun q : MoveProposal => { q with proposed_x := px, proposed_y := py })
            (fun a => rfl)]
          exact h
        split <;> exact hmap
    · exact h

theorem MPUnique_onProposalApprove (st : ServerState) (sid : Nat) (pid : Nat)
    (db : DbOutcome) (h : MPUnique st.moveProposals) :
    MPUnique (onProposalApprove st sid pid db).1.moveProposals := by
  unfold onProposalApprove proposalApproveBody
  split
  · exact h
  · split
    · split
      · exact h
      · split
        · split
          · exact h
          · exact MPUnique_filter _ _ h
        · split
          · exact h
          · exact MPUnique_filter _ _ h
    · exact h

theorem MPUnique_onProposalReject (st : ServerState) (sid : Nat) (pid : Nat)
    (db : DbOutcome) (h : MPUnique st.moveProposals) :
    MPUnique (onProposalReject st sid pid db).1.moveProposals := by
  unfold onProposalReject proposalRejectBody
  split
  · exact h
  · split
    · split
      · exact h
      · exact MPUnique_filter _ _ h
    · exact h

theorem MPUnique_onProposalCancel (st : ServerState) (sid : Nat) (pid : Nat)
    (db : DbOutcome) (h : MPUnique st.moveProposals) :
    MPUnique (onProposalCancel st sid pid db).1.moveProposals := by
  unfold onProposalCancel proposalCancelBody
  split
  · exact h
  · split
    · split
      · exact h
      · exact MPUnique_filter _ _ h
    · exact h

theorem MPUnique_onClearAll (st : ServerState) (sid : Nat) (db : DbOutcome)
    (h : MPUnique st.moveProposals) :
    MPUnique (onClearAllProposals st sid db).1.moveProposals := by
  unfold onClearAllProposals clearAllBody
  split
  · exact h
  · split
    · split
      · exact h
      · simp [MPUnique]
    · exact h

/-- Every state reachable from startup satisfies the one-proposal-per-token
invariant. -/
theorem reachable_MPUnique (dmp : String) (st : ServerState)
    (h : Reachable dmp st) : MPUnique st.moveProposals := by
  induction h with
  | init => simp [MPUnique, initState]
  | step st a hr ih =>
    cases a with
    | connect sid =>
      show MPUnique (stepAction dmp st (.connect sid)).1.moveProposals
      simp only [stepAction]
      split
      · exact ih
      · exact ih
    | disconnect sid => exact ih
    | authenticate sid pw role =>
      show MPUnique (stepAction dmp st (.authenticate sid pw role)).1.moveProposals
      unfold stepAction
      rw [mp_onAuthenticate]
      exact ih
    | setRole sid role =>
      show MPUnique (stepAction dmp st (.setRole sid role)).1.moveProposals
      unfold stepAction
      rw [mp_onSetRole]
      exact ih
    | requestTokens sid =>
      show MPUnique (stepAction dmp st (.requestTokens sid)).1.moveProposals
      unfold stepAction
      rw [mp_onRequestTokens]
      exact ih
    | tokenPlace sid d now db =>
      show MPUnique (stepAction dmp st (.tokenPlace sid d now db)).1.moveProposals
      unfold stepAction
      rw [mp_onTokenPlace]
      exact ih
    | tokenMove sid tid x y db =>
      show MPUnique (stepAction dmp st (.tokenMove sid tid x y db)).1.moveProposals
      unfold stepAction
      rw [mp_onTokenMove]
      exact ih
    | tokenUpdate sid u db =>
      show MPUnique (stepAction dmp st (.tokenUpdate sid u db)).1.moveProposals
      unfold stepAction
      rw [mp_onTokenUpdate]
      exact ih
    | tokenRemove sid tid db =>
      show MPUnique (stepAction dmp st (.tokenRemove sid tid db)).1.moveProposals
      unfold stepAction
      rw [mp_onTokenRemove]
      exact ih
    | factionUpdate sid d db =>
      show MPUnique (stepAction dmp st (.factionUpdate sid d db)).1.moveProposals
      unfold stepAction
      rw [mp_onFactionStatsUpdate]
      exact ih
    | factionDelete sid name db =>
      show MPUnique (stepAction dmp st (.factionDelete sid name db)).1.moveProposals
      unfold stepAction
      rw [mp_onFactionStatsDelete]
      exact ih
    | proposalCreate sid d db => exact MPUnique_onProposalCreate st sid d db ih
    | proposalUpdate sid tid px py db => exact MPUnique_onProposalUpdate st sid tid px py db ih
    | proposalApprove sid pid db => exact MPUnique_onProposalApprove st sid pid db ih
    | proposalReject sid pid db => exact MPUnique_onProposalReject st sid pid db ih
    | proposalCancel sid pid db => exact MPUnique_onProposalCancel st sid pid db ih
    | clearAll sid db => exact MPUnique_onClearAll st sid db ih
    | movableUpdate sid cfg db =>
      show MPUnique (stepAction dmp st (.movableUpdate sid cfg db)).1.moveProposals
      unfold stepAction
      rw [mp_onMovableFactionsUpdate]
      exact ih

/-- C4 (confirmed): every reachable state has at most one live proposal per
`token_id`, and a player's `move_proposal:create` for a token supersedes:
afterwards exactly one proposal for that token remains, carrying the newest
proposed coordinates (and the store-assigned id). -/
theorem proposal_per_token_unique (dmp : String) (st : ServerState)
    (h : Reachable dmp st) :
    MPUnique st.moveProposals ∧
    ∀ sid s d, findSession st sid = some s → (s.userRole == some "player") = true →
      (onProposalCreate st sid d .ok).1.moveProposals.filter
          (fun p => p.token_id == d.token_id)
        = [buildProposal st sid d] := by
  refine ⟨reachable_MPUnique dmp st h, fun sid s d hfind hrole => ?_⟩
  have hmp : (onProposalCreate st sid d .ok).1.moveProposals
      = (st.moveProposals.filter (fun p => p.token_id != d.token_id))
        ++ [buildProposal st sid d] := by
    simp [onProposalCreate, hfind, hrole, proposalCreateBody]
  rw [hmp, List.filter_append, filter_eq_after_filter_ne]
  simp [buildProposal]

/-- Witness for C4's theorem at the concrete reachable state
`reachedState` (two successive proposals for token 5). -/
theorem proposal_per_token_unique_witness :
    Reachable "hunter2" reachedState ∧
    (MPUnique reachedState.moveProposals ∧
     ∀ sid s d, findSession reachedState sid = some s →
       (s.userRole == some "player") = true →
       (onProposalCreate reachedState sid d .ok).1.moveProposals.filter
           (fun p => p.token_id == d.token_id)
         = [buildProposal reachedState sid d]) := by
  have hreach : Reachable "hunter2" reachedState := by
    unfold reachedState
    exact Reachable.step _ _ (Reachable.step _ _ (Reachable.step _ _
      (Reachable.step _ _ (@Reachable.init "hunter2"))))
  exact ⟨hreach, proposal_per_token_unique "hunter2" reachedState hreach⟩

/-- Witness for C2's theorem: the player-authenticated session 2 of
`sampleState` escalates itself to DM via `set_role`. -/
theorem set_role_grants_dm_witness :
    (findSession sampleState 2 = some playerSession ∧ playerSession.isAuthenticated = true) ∧
    (findSession (onSetRole sampleState 2 "dm").1 2 = some { playerSession with userRole := some "dm" } ∧
     isDM { playerSession with userRole := some "dm" } = true ∧
     DMActionsPermitted (onSetRole sampleState 2 "dm").1 2) :=
  ⟨⟨by decide, by decide⟩, set_role_grants_dm sampleState 2 playerSession (by decide) (by decide)⟩

/-- Finding by a predicate that the mutator preserves, after `updateFirst`
with that predicate, yields the mutated first match. -/
theorem find?_updateFirst {α} (p : α → Bool) (f : α → α)
    (hp : ∀ a, p a = true → p (f a) = true) :
    ∀ l : List α, (updateFirst p f l).find? p = (l.find? p).map f := by
  intro l
  induction l with
  | nil => rfl
  | cons a as ih =>
    by_cases h : p a = true
    · simp [updateFirst, h, List.find?, hp a h]
    · simp [updateFirst, h, List.find?, ih]

/-- Every entry of the filtered token broadcast carries the broadcast
event. -/
theorem mem_tokenVisEmits {sessions : List Session} {vis : Option Bool} {e : Event}
    {b : Nat × Event} (hb : b ∈ tokenVisEmits sessions vis e) : b.2 = e := by
  obtain ⟨c, _, hfc⟩ := List.mem_filterMap.1 hb
  split at hfc
  · cases hfc
    rfl
  · cases hfc

/-- Every entry of an `io.emit` broadcast carries the broadcast event. -/
theorem mem_emitAll {sessions : List Session} {e : Event} {b : Nat × Event}
    (hb : b ∈ emitAll sessions e) : b.2 = e := by
  obtain ⟨c, _, rfl⟩ := List.mem_map.1 hb
  rfl

/-- C5 (confirmed): a DM's `move_proposal:approve` with a returning record
store: a missing proposal id yields only a not-found error reply with
nothing mutated; otherwise the proposal is deleted without any error reply,
the referenced token is moved to the proposed coordinates when it still
exists, and the token collection is untouched when it does not. -/
theorem approve_move_proposal (st : ServerState) (sid : Nat) (pid : Nat)
    (db : DbOutcome) (s : Session) (hfind : findSession st sid = some s)
    (hdm : isDM s = true) (hdb : db ≠ DbOutcome.exn) :
    ApproveSpec st sid pid db := by
  have hh : onProposalApprove st sid pid db = proposalApproveBody st sid pid db := by
    simp [onProposalApprove, hfind, hdm]
  have hdbb : (db == DbOutcome.exn) = false := by
    cases db with
    | ok => rfl
    | err => rfl
    | exn => exact absurd rfl hdb
  constructor
  · intro hnone
    rw [hh]
    simp [proposalApproveBody, hnone]
  · intro p hp
    rcases htok : st.tokens.find? (fun t => t.id == p.token_id) with _ | t0
    · have hres : onProposalApprove st sid pid db
          = ({ st with moveProposals := st.moveProposals.filter (fun q => q.id != pid) },
             emitAll st.sessions (.proposalApproved pid)) := by
        rw [hh]
        simp [proposalApproveBody, hp, htok, hdbb, emitAll]
      refine ⟨by rw [hres], ?_, ?_, ?_⟩
      · intro x m hmem
        rw [hres] at hmem
        have := mem_emitAll hmem
        simp at this
      · intro t0 ht0
        rw [htok] at ht0
        cases ht0
      · intro _
        rw [hres]
    · have hres : onProposalApprove st sid pid db
          = ({ st with
                tokens := updateFirst (fun u => u.id == p.token_id)
                  (fun u => { u with x := p.proposed_x, y := p.proposed_y }) st.tokens,
                moveProposals := st.moveProposals.filter (fun q => q.id != pid) },
             tokenVisEmits st.sessions
                 ({ t0 with x := p.proposed_x, y := p.proposed_y }).visible_to_players
                 (.tokenMoved p.token_id p.proposed_x p.proposed_y)
               ++ emitAll st.sessions (.proposalApproved pid)) := by
        rw [hh]
        simp [proposalApproveBody, hp, htok, hdbb, tokenVisEmits, emitAll]
      refine ⟨by rw [hres], ?_, ?_, ?_⟩
      · intro x m hmem
        rw [hres] at hmem
        rcases List.mem_append.1 hmem with h1 | h1
        · have := mem_tokenVisEmits h1
          simp at this
        · have := mem_emitAll h1
          simp at this
      · intro t1 ht1
        rw [htok] at ht1
        cases ht1
        rw [hres]
        rw [find?_updateFirst (fun t => t.id == p.token_id)
          (fun u => { u with x := p.proposed_x, y := p.proposed_y }) (fun a ha => ha) st.tokens]
        rw [htok]
        rfl
      · intro hnone
        rw [htok] at hnone
        cases hnone

/-- Witness for C5's theorem: the DM session 1 of `sampleState` approves
proposal 1 (token 1 present) with a successful store. -/
theorem approve_move_proposal_witness :
    (findSession sampleState 1 = some dmSession ∧ isDM dmSession = true ∧
     DbOutcome.ok ≠ DbOutcome.exn) ∧
    ApproveSpec sampleState 1 1 .ok :=
  ⟨⟨by decide, by decide, by decide⟩,
   approve_move_proposal sampleState 1 1 .ok dmSession (by decide) (by decide) (by decide)⟩

/-- C6 (corrected): the token handlers are fully independent of the record
store's outcome, and every other mutating handler treats a returned store
error result exactly like success — but `move_proposal:create` is the
exception: an insert error result aborts the creation (the superseded
proposal is already gone from memory), broadcasts nothing, and surfaces a
failure message to the initiating session. -/
theorem persistence_independence (st : ServerState) (sid : Nat) (s : Session)
    (d : ProposalCreateData) (hfind : findSession st sid = some s)
    (hrole : (s.userRole == some "player") = true) :
    PersistenceIndependence st sid ∧
    onProposalCreate st sid d .err
      = ({ st with moveProposals := st.moveProposals.filter (fun p => p.token_id != d.token_id) },
         [(sid, .errMsg "Failed to create move proposal")]) := by
  constructor
  · refine ⟨fun d now db db' => rfl, fun tid x y db db' => rfl, fun u db db' => rfl,
      fun tid db db' => rfl, fun d => ?_, fun name => ?_, fun tid px py => ?_,
      fun pid => ?_, fun pid => ?_, fun pid => ?_, ?_, fun cfg => ?_⟩
    · unfold onFactionStatsUpdate factionStatsUpdateBody
      split
      · rfl
      · split
        · split <;> rfl
        · rfl
    · unfold onFactionStatsDelete factionStatsDeleteBody
      split
      · rfl
      · split <;> rfl
    · unfold onProposalUpdate proposalUpdateBody
      split
      · rfl
      · split
        · split <;> rfl
        · rfl
    · unfold onProposalApprove proposalApproveBody
      split
      · rfl
      · split
        · split
          · rfl
          · split <;> rfl
        · rfl
    · unfold onProposalReject proposalRejectBody
      split
      · rfl
      · split <;> rfl
    · unfold onProposalCancel proposalCancelBody
      split
      · rfl
      · split <;> rfl
    · unfold onClearAllProposals clearAllBody
      split
      · rfl
      · split <;> rfl
    · unfold onMovableFactionsUpdate movableFactionsBody
      split
      · rfl
      · split <;> rfl
  · simp [onProposalCreate, hfind, hrole, proposalCreateBody]

/-- Witness for C6's theorem at `sampleState` with the player session 2. -/
theorem persistence_independence_witness :
    (findSession sampleState 2 = some playerSession ∧
     (playerSession.userRole == some "player") = true) ∧
    (PersistenceIndependence sampleState 2 ∧
     onProposalCreate sampleState 2
         { token_id := 1, original_x := 100, original_y := 200, proposed_x := 7, proposed_y := 8 } .err
       = ({ sampleState with
             moveProposals := sampleState.moveProposals.filter (fun p => p.token_id != 1) },
          [(2, .errMsg "Failed to create move proposal")])) :=
  ⟨⟨by decide, by decide⟩,
   persistence_independence sampleState 2 playerSession
     { token_id := 1, original_x := 100, original_y := 200, proposed_x := 7, proposed_y := 8 }
     (by decide) (by decide)⟩

/-- C6 counterexample to the claim as stated: at `sampleState` a failed
store insert during `move_proposal:create` changes the handler's outcome
(so mutation and broadcast are not independent of persistence) and surfaces
a failure message to the initiating session. -/
theorem proposal_create_persistence_counterexample :
    (onProposalCreate sampleState 2
        { token_id := 1, original_x := 100, original_y := 200, proposed_x := 7, proposed_y := 8 } .err).2
      = [(2, Event.errMsg "Failed to create move proposal")] ∧
    onProposalCreate sampleState 2
        { token_id := 1, original_x := 100, original_y := 200, proposed_x := 7, proposed_y := 8 } .ok
      ≠ onProposalCreate sampleState 2
          { token_id := 1, original_x := 100, original_y := 200, proposed_x := 7, proposed_y := 8 } .err := by
  constructor
  · decide
  · decide

/-- C7 (confirmed): opposite default polarities of the two visibility
filters — a DM sees all tokens and all faction records; a player sees
exactly the tokens whose `visible_to_players` is not `false` (an absent
flag means visible) and exactly the faction records whose `is_visible` is
`true` (an absent flag means hidden). -/
theorem visibility_filter_defaults (st : ServerState) (sid : Nat) (s : Session)
    (hfind : findSession st sid = some s) (hauth : s.isAuthenticated = true) :
    SnapshotFilterSpec st sid s := by
  refine ⟨fun hdm => ?_, fun hpl => ?_, fun t => ?_, fun t ht hvp => ?_, fun f => ?_,
    fun f hf hiv => ?_⟩
  · simp [onRequestTokens, hfind, hauth, hdm]
  · simp [onRequestTokens, hfind, hauth, hpl]
  · simp [visibleTokens, List.mem_filter, bne_iff_ne]
  · simp [visibleTokens, List.mem_filter, bne_iff_ne, ht, hvp]
  · simp [visibleFactions, List.mem_filter]
  · simp [visibleFactions, List.mem_filter, hiv]

/-- Witness for C7's theorem: the player session 2 of `sampleState`. -/
theorem visibility_filter_defaults_witness :
    (findSession sampleState 2 = some playerSession ∧
     playerSession.isAuthenticated = true) ∧
    SnapshotFilterSpec sampleState 2 playerSession :=
  ⟨⟨by decide, by decide⟩,
   visibility_filter_defaults sampleState 2 playerSession (by decide) (by decide)⟩

/-- C8 (confirmed): a DM's `token:update` of an existing token broadcasts
`token:updated` to every authenticated DM session; in the same mutation a
token that ends up player-hidden is delivered to authenticated player
sessions as `token:removed` (never as an update), while a player-visible
result (including hidden-to-visible transitions) is delivered to them as a
normal `token:updated`. -/
theorem token_update_hidden_removal (st : ServerState) (sid : Nat) (s : Session)
    (u : TokenUpdateData) (t0 : Token) (db : DbOutcome)
    (hfind : findSession st sid = some s) (hdm : isDM s = true)
    (htok : st.tokens.find? (fun t => t.id == u.id) = some t0)
    (hnd : (st.sessions.map (fun c => c.sid)).Nodup) :
    UpdateBroadcastSpec st sid u t0 db := by
  have hres : (onTokenUpdate st sid u db).2
      = tokenUpdateEmits st.sessions (mergeToken t0 u) := by
    simp [onTokenUpdate, hfind, hdm, updateTokenBody, htok]
  refine ⟨fun c hc hca hcr => ?_, fun hv0 hv1 c hc hca hcr => ⟨?_, ?_⟩,
    fun hv1 c hc hca hcr => ?_⟩
  · rw [hres]
    exact List.mem_filterMap.2 ⟨c, hc, by simp [tokenUpdateEmits, hca, hcr]⟩
  · rw [hres]
    refine List.mem_filterMap.2 ⟨c, hc, ?_⟩
    simp [tokenUpdateEmits, hca, hcr, hv1]
  · rw [hres]
    intro hmem
    obtain ⟨c', hc', hfc'⟩ := List.mem_filterMap.1 hmem
    unfold tokenUpdateEmits at hmem
    split at hfc'
    · split at hfc'
      · rename_i hdm'
        simp only [Option.some.injEq, Prod.mk.injEq] at hfc'
        obtain ⟨hsid, -⟩ := hfc'
        have hceq : c' = c := List.inj_on_of_nodup_map hnd hc' hc hsid
        rw [hceq, hcr] at hdm'
        simp at hdm'
      · split at hfc'
        · split at hfc'
          · rename_i hvis
            rw [hv1] at hvis
            simp at hvis
          · simp at hfc'
        · cases hfc'
    · cases hfc'
  · rw [hres]
    refine List.mem_filterMap.2 ⟨c, hc, ?_⟩
    have hv : ((mergeToken t0 u).visible_to_players != some false) = true := by
      simp [bne_iff_ne, hv1]
    simp [tokenUpdateEmits, hca, hcr, hv]

/-- Witness for C8's theorem: the DM session 1 of `sampleState` hides
token 1 (`visible_to_players` true to false). -/
theorem token_update_hidden_removal_witness :
    (findSession sampleState 1 = some dmSession ∧ isDM dmSession = true ∧
     sampleState.tokens.find? (fun t => t.id == 1) = some sampleToken ∧
     (sampleState.sessions.map (fun c => c.sid)).Nodup) ∧
    UpdateBroadcastSpec sampleState 1
      { id := 1, x := none, y := none, name := none, faction := none, hp := none,
        max_hp := none, current_hp := none, attack := none, counterattack := none,
        special := none, notes := none, color := none, visible_to_players := some false }
      sampleToken .ok :=
  ⟨⟨by decide, by decide, by decide, by decide⟩,
   token_update_hidden_removal sampleState 1 dmSession
     { id := 1, x := none, y := none, name := none, faction := none, hp := none,
       max_hp := none, current_hp := none, attack := none, counterattack := none,
       special := none, notes := none, color := none, visible_to_players := some false }
     sampleToken .ok (by decide) (by decide) (by decide) (by decide)⟩

theorem beq_exn_false {db : DbOutcome} (h : db ≠ DbOutcome.exn) :
    (db == DbOutcome.exn) = false := by
  cases db with
  | ok => rfl
  | err => rfl
  | exn => exact absurd rfl h

/-- C9 (corrected): a DM's `move_proposal:reject` and a player's
`move_proposal:cancel` have identical state effect (the proposal with that
id is deleted, nothing else changes) — and, contrary to the claim, they
also broadcast the *same* event (`move_proposal:rejected`) to all
sessions, so only the permitted role distinguishes them. -/
theorem reject_cancel_equivalence (st : ServerState) (sid1 sid2 pid : Nat)
    (s1 s2 : Session) (db : DbOutcome)
    (h1 : findSession st sid1 = some s1) (hdm : isDM s1 = true)
    (h2 : findSession st sid2 = some s2) (hpl : (s2.userRole == some "player") = true) :
    (onProposalReject st sid1 pid db).1 = (onProposalCancel st sid2 pid db).1 ∧
    (db ≠ DbOutcome.exn →
      (onProposalReject st sid1 pid db).2 = emitAll st.sessions (.proposalRejected pid) ∧
      (onProposalCancel st sid2 pid db).2 = emitAll st.sessions (.proposalRejected pid)) := by
  have hr : onProposalReject st sid1 pid db = proposalRejectBody st sid1 pid db := by
    simp [onProposalReject, h1, hdm]
  have hc : onProposalCancel st sid2 pid db = proposalCancelBody st sid2 pid db := by
    simp [onProposalCancel, h2, hpl]
  constructor
  · rw [hr, hc]
    unfold proposalRejectBody proposalCancelBody
    split <;> rfl
  · intro hdb
    have hdbb := beq_exn_false hdb
    rw [hr, hc]
    constructor
    · simp [proposalRejectBody, hdbb]
    · simp [proposalCancelBody, hdbb]

/-- Witness for C9's theorem: DM session 1 rejects and player session 2
cancels proposal 1 in `sampleState`. -/
theorem reject_cancel_equivalence_witness :
    (findSession sampleState 1 = some dmSession ∧ isDM dmSession = true ∧
     findSession sampleState 2 = some playerSession ∧
     (playerSession.userRole == some "player") = true) ∧
    ((onProposalReject sampleState 1 1 .ok).1 = (onProposalCancel sampleState 2 1 .ok).1 ∧
     (DbOutcome.ok ≠ DbOutcome.exn →
       (onProposalReject sampleState 1 1 .ok).2
         = emitAll sampleState.sessions (.proposalRejected 1) ∧
       (onProposalCancel sampleState 2 1 .ok).2
         = emitAll sampleState.sessions (.proposalRejected 1))) :=
  ⟨⟨by decide, by decide, by decide, by decide⟩,
   reject_cancel_equivalence sampleState 1 2 1 dmSession playerSession .ok
     (by decide) (by decide) (by decide) (by decide)⟩

/-- C9 counterexample to the claim as stated: at `sampleState` the cancel
broadcast is byte-for-byte the reject broadcast — both emit
`move_proposal:rejected` — so the two operations are not distinguished by
the broadcast event name. -/
theorem cancel_emits_rejected_counterexample :
    (onProposalCancel sampleState 2 1 .ok).2 = (onProposalReject sampleState 1 1 .ok).2 ∧
    (onProposalCancel sampleState 2 1 .ok).2
      = [(1, Event.proposalRejected 1), (2, Event.proposalRejected 1),
         (3, Event.proposalRejected 1)] := by
  constructor
  · decide
  · decide

/-- C10 (corrected): token/faction deletions, all move-proposal lifecycle
events and movable-factions updates are broadcast with `io.emit`, i.e.
delivered unfiltered to every *connected* session — including sessions
that never authenticated. -/
theorem lifecycle_broadcast_unfiltered (st : ServerState) (sidD sidP : Nat)
    (sD sP : Session)
    (hD : findSession st sidD = some sD) (hdm : isDM sD = true)
    (hP : findSession st sidP = some sP) (hpl : (sP.userRole == some "player") = true) :
    UnfilteredBroadcastSpec st sidD sidP := by
  refine ⟨fun tid db => ?_, fun name db hdb => ?_, fun d => ?_,
    fun tid px py p0 db hdb hp0 => ?_, fun pid p db hdb hp c hc => ?_,
    fun pid db hdb => ?_, fun pid db hdb => ?_, fun db hdb => ?_, fun cfg db hdb => ?_⟩
  · simp [onTokenRemove, hD, hdm, tokenRemoveBody]
  · simp [onFactionStatsDelete, hD, hdm, factionStatsDeleteBody, beq_exn_false hdb]
  · simp [onProposalCreate, hP, hpl, proposalCreateBody]
  · simp [onProposalUpdate, hP, hpl, proposalUpdateBody, hp0, beq_exn_false hdb]
  · have happ : onProposalApprove st sidD pid db = proposalApproveBody st sidD pid db := by
      simp [onProposalApprove, hD, hdm]
    rw [happ]
    rcases htok : st.tokens.find? (fun t => t.id == p.token_id) with _ | t0
    · simp only [proposalApproveBody, hp, htok, beq_exn_false hdb, Bool.false_eq_true,
        if_false]
      exact List.mem_map.2 ⟨c, hc, rfl⟩
    · simp only [proposalApproveBody, hp, htok, beq_exn_false hdb, Bool.false_eq_true,
        if_false]
      exact List.mem_append.2 (Or.inr (List.mem_map.2 ⟨c, hc, rfl⟩))
  · simp [onProposalReject, hD, hdm, proposalRejectBody, beq_exn_false hdb]
  · simp [onProposalCancel, hP, hpl, proposalCancelBody, beq_exn_false hdb]
  · simp [onClearAllProposals, hD, hdm, clearAllBody, beq_exn_false hdb]
  · simp [onMovableFactionsUpdate, hD, hdm, movableFactionsBody, beq_exn_false hdb]

/-- Witness for C10's theorem at `sampleState` with DM session 1 and player
session 2. -/
theorem lifecycle_broadcast_unfiltered_witness :
    (findSession sampleState 1 = some dmSession ∧ isDM dmSession = true ∧
     findSession sampleState 2 = some playerSession ∧
     (playerSession.userRole == some "player") = true) ∧
    UnfilteredBroadcastSpec sampleState 1 2 :=
  ⟨⟨by decide, by decide, by decide, by decide⟩,
   lifecycle_broadcast_unfiltered sampleState 1 2 dmSession playerSession
     (by decide) (by decide) (by decide) (by decide)⟩

/-- C10 counterexample to the claim as stated: the never-authenticated
connected session 3 of `sampleState` receives the `token:removed`
broadcast of a DM's `token:remove`. -/
theorem unauthenticated_receives_broadcast_counterexample :
    ghostSession ∈ sampleState.sessions ∧ ghostSession.isAuthenticated = false ∧
    (ghostSession.sid, Event.tokenRemoved 1) ∈ (onTokenRemove sampleState 1 1 .ok).2 := by
  refine ⟨by decide, by decide, ?_⟩
  decide

end ValenciaMap
